import Mathlib

/-! # go-supervise: the service supervisor and the log pump of `svscan/svscan.go`

A shallow embedding of `ServiceHandler.startService`, `ServiceHandler.startLogger`,
`ServiceHandler.writeLine` and of the eviction branch of `start`.

Conventions of the embedding.

* Go's `int` is a 64-bit two's-complement integer: values are `Int`, and `+=` wraps through
  `wrapInt`.
* Everything the operating system, the registry (`DB.getServices`) or the Go scheduler decides
  is an explicit input: one `Attempt` record per activation of `startService`, one `LoggerRun`
  record per activation of `startLogger`.  The functions recurse on the list of these records,
  so a run that has consumed every record is reported as `Status.pending`.
* Every observable action (log call, process launch, pipe write, sleep, kill) is appended to a
  trace of `Event`s, in program order.
* `runningServices` is a Go map from names to `*Service`; it is an association list from names
  to addresses.  The handler's own `Service` object is kept next to its address.
-/

namespace Svscan

/-! ## Machine integers -/

/-- Two's-complement wrap-around of Go's 64-bit `int`. -/
def wrapInt (x : Int) : Int := (x + 2 ^ 63) % 2 ^ 64 - 2 ^ 63

/-- The values a Go `int` can hold. -/
def InIntRange (x : Int) : Prop := -(2 ^ 63) ≤ x ∧ x < 2 ^ 63

instance (x : Int) : Decidable (InIntRange x) := by
  unfold InIntRange; exact inferInstance

/-! ## Data model -/

/-- Go's `exec.Cmd`: `process` is the `Process` field, nil until `Start` has succeeded. -/
structure ExecCmd where
  path : String
  args : List String
  process : Option Nat
  deriving DecidableEq, Repr

/-- Go's `exec.Command(path, args...)`: a command that has not been started. -/
def execCommand (path : String) (args : List String) : ExecCmd :=
  { path := path, args := args, process := none }

/-- Modelled from the spec: the struct `Service` is declared outside `svscan.go`.  It has the
fields `svscan.go` reads and writes, which are the ones of the Service of the data model:
the path (`Value`), the process handle (`Cmd`), the logger handle (`LogCmd`), `startupCount`
(`Startups`, an integer: a Go `int`) and `pendingLogLines` (`LogBuffer`). -/
structure Service where
  Value : String
  Startups : Int
  Cmd : Option ExecCmd
  LogCmd : Option ExecCmd
  LogBuffer : List String
  deriving DecidableEq, Repr

/-- Modelled from the spec: the type of `CONFIG.ServiceConfig` is declared in the package
`config`, outside `svscan.go`.  It supplies the maximum of failed startups per service and the
wait between restarts in seconds; `startService` compares the first with `Startups`, so it is
a Go `int` too. -/
structure ServiceConfig where
  MaxFailedStartups : Int
  TimeWaitBetweenStartups : Int
  deriving DecidableEq, Repr

/-- Severities of the system logger (`LOGGER.Debug`, `LOGGER.Warning`, `LOGGER.Crit`). -/
inductive Severity where
  | debug
  | warning
  | crit
  deriving DecidableEq, Repr

/-- The messages of `startService` and `startLogger`, one constructor per format string,
carrying the arguments of the format. -/
inductive Msg where
  /-- Format "service %s has had too many startups in this session" -/
  | tooManyStartups (serviceName : String)
  /-- Format "Starting %s\n" -/
  | starting (value : String)
  /-- Format "service %s not startable: %s" -/
  | notStartable (serviceName : String) (err : String)
  /-- Format "Starting %s, %s\n" -/
  | started (pid : Nat) (value : String)
  /-- Format "restarting service %s, %s" -/
  | restarting (serviceName : String) (err : Option String)
  /-- Format "Waiting for logger to come up" -/
  | waitingForLogger
  /-- Format "Killing corresponding logger %s" -/
  | killingLogger (pid : Nat)
  /-- Format "Could not find any logger for %s" -/
  | noLogger (serviceName : String)
  /-- Format "Error while catching stdinpipe of %s, %s" -/
  | stdinPipeError (value : String) (err : String)
  /-- Format "Error while starting logger %s" -/
  | loggerStartError (err : String)
  /-- Format "found unhandled log lines for %s, writing those first" -/
  | unhandledLines (value : String)
  /-- Format "Could not write buffered log for %s. error: %s" -/
  | bufferedWriteError (value : String) (err : String)
  /-- Format "%s - %s" -/
  | droppedLine (value : String) (line : String)
  /-- Format "IO gone away for %s, %s" -/
  | ioGoneAway (value : String) (pid : Nat)
  /-- Format "logger %s done without errors" -/
  | loggerDoneClean (value : String)
  /-- Format "logger %s done with error = %v\n" -/
  | loggerDoneError (value : String) (err : Option String)
  /-- Format of the debug message of `writeLine` -/
  | writing (line : String)
  deriving DecidableEq, Repr

/-- Observable actions, in program order. -/
inductive Event where
  /-- A call of the system logger -/
  | log (sev : Severity) (msg : Msg)
  /-- The call `new(DB).getServices()` -/
  | getServices
  /-- The call `s.service.Cmd.Start()` on the run executable; `ok` tells whether a process was created -/
  | launch (path : String) (ok : Bool)
  /-- The statement `go s.startLogger(loggerDone, stdout)` -/
  | spawnLogger
  /-- The call `s.service.Cmd.Wait()` has returned -/
  | exited
  /-- The call `s.service.LogCmd.Process.Kill()` -/
  | killLogger (pid : Nat)
  /-- The call `time.Sleep(n * time.Second)` -/
  | sleep (seconds : Int)
  /-- The call `s.service.LogCmd.Start()`; `ok` tells whether a logger process was created -/
  | launchLogger (ok : Bool)
  /-- The call `io.WriteString(stdin, data)` on the stdin of the logger with process id `pid` -/
  | write (pid : Nat) (data : String) (ok : Bool)
  /-- The call `s.service.LogCmd.Wait()` has returned -/
  | loggerExited (pid : Nat)
  deriving DecidableEq, Repr

/-- The Go map `runningServices`, from service names to `*Service` addresses. -/
abbrev ServiceMap := List (String × Nat)

/-- The lookup `_, ok := m[name]`. -/
def ServiceMap.contains (m : ServiceMap) (name : String) : Bool :=
  m.any (fun e => e.1 == name)

/-- The read `m[name]`. -/
def ServiceMap.lookup (m : ServiceMap) (name : String) : Option Nat :=
  (m.find? (fun e => e.1 == name)).map Prod.snd

/-- The statement `delete(m, name)`. -/
def ServiceMap.delete (m : ServiceMap) (name : String) : ServiceMap :=
  m.filter (fun e => !(e.1 == name))

/-- The assignment `m[name] = ptr`: the entry of `name` is replaced, or added when absent. -/
def ServiceMap.insert (m : ServiceMap) (name : String) (ptr : Nat) : ServiceMap :=
  (name, ptr) :: m.delete name

/-- What one `ServiceHandler` sees: the address in `s.service`, the object at that address,
and the map `runningServices` it was handed. -/
structure Sup where
  ptr : Nat
  service : Service
  runningServices : ServiceMap
  deriving DecidableEq, Repr

/-- How far a call has got. -/
inductive Status where
  /-- The call returned -/
  | returned
  /-- The call is blocked in `Cmd.Wait()`: the process has not exited -/
  | waiting
  /-- The call spins in the loop that waits for the logger's process handle -/
  | polling
  /-- The call is blocked in `LogCmd.Wait()`: the logger has not exited -/
  | loggerWaiting
  /-- The recorded inputs are used up -/
  | pending
  deriving DecidableEq, Repr

/-- The outcome of a call: the state reached, the trace of actions, and how far it has got. -/
structure Run where
  state : Sup
  trace : List Event
  status : Status
  deriving DecidableEq, Repr

/-- Put the actions `evs` in front of the trace of `r`. -/
def Run.after (evs : List Event) (r : Run) : Run :=
  { r with trace := evs ++ r.trace }

/-! ## The supervisor: `startService` -/

/-- The inputs of one activation of `startService`. -/
structure Attempt where
  /-- The names in the mapping returned by `getServices()` -/
  knownServices : List String
  /-- The error of `Cmd.Start()`, `none` for nil -/
  startErr : Option String
  /-- The process id of the launched process -/
  pid : Nat
  /-- The result of `Cmd.Wait()`: `none` when the process never exits, `some r` when `Wait`
  returns `r` (`r = none` is a nil error, exit code 0) -/
  waitResult : Option (Option String)
  /-- The Log Pump spawned by this activation runs concurrently and assigns
  `s.service.LogCmd`; `some (k, p)` when the loop at lines 243-246 sees a logger process
  handle (process id `p`) after `k` failed polls, `none` when it never does -/
  loggerUp : Option (Nat × Nat)
  deriving DecidableEq, Repr

/-- The command built by `startLogger` (line 147). -/
def loggerCommand (value : String) : ExecCmd :=
  execCommand "./../multilog/multilog" ["-path", "/" ++ value]

/-- The body of the polling loop of lines 243-246, run `k` times. -/
def pollEvents : Nat → List Event
  | 0 => []
  | k + 1 => Event.log .crit .waitingForLogger :: Event.sleep 1 :: pollEvents k

/-- Lines 247-252: kill the logger when its process handle is there. -/
def killEvents (serviceName : String) (svc : Service) : List Event :=
  match svc.LogCmd with
  | some c =>
    match c.process with
    | some p => [Event.log .warning (.killingLogger p), Event.killLogger p]
    | none => [Event.log .crit (.noLogger serviceName)]
  | none => [Event.log .crit (.noLogger serviceName)]

/-- The method `ServiceHandler.startService` (lines 211-257). -/
def startService (cfg : ServiceConfig) (serviceName : String) : List Attempt → Sup → Run
  | [], st =>
    if st.service.Startups ≥ cfg.MaxFailedStartups then
      ⟨st, [Event.log .crit (.tooManyStartups serviceName)], .returned⟩
    else
      ⟨st, [], .pending⟩
  | a :: rest, st =>
    if st.service.Startups ≥ cfg.MaxFailedStartups then
      ⟨st, [Event.log .crit (.tooManyStartups serviceName)], .returned⟩
    else if ¬ serviceName ∈ a.knownServices then
      ⟨st, [Event.getServices], .returned⟩
    else
      let path := "/" ++ st.service.Value ++ "/run"
      let svc1 := { st.service with Cmd := some (execCommand path []) }
      let svc2 := { svc1 with Startups := wrapInt (svc1.Startups + 1) }
      let evs1 := [Event.getServices, Event.log .warning (.starting st.service.Value)]
      match a.startErr with
      | some err =>
        ⟨{ st with service := svc2 },
          evs1 ++ [Event.launch path false,
                   Event.log .crit (.notStartable serviceName err)],
          .returned⟩
      | none =>
        let svc3 := { svc2 with Cmd := some { execCommand path [] with process := some a.pid } }
        let st3 : Sup :=
          { st with service := svc3,
                    runningServices := st.runningServices.insert serviceName st.ptr }
        let evs3 := evs1 ++ [Event.launch path true,
                             Event.log .debug (.started a.pid st.service.Value),
                             Event.spawnLogger]
        match a.waitResult with
        | none => ⟨st3, evs3, .waiting⟩
        | some err =>
          let evs4 := evs3 ++ [Event.exited,
                               Event.log .warning (.restarting serviceName err)]
          match a.loggerUp with
          | none => ⟨st3, evs4, .polling⟩
          | some (k, p) =>
            let svc5 := { svc3 with
              LogCmd := some { loggerCommand st.service.Value with process := some p } }
            let st5 : Sup := { st3 with service := svc5 }
            let evs5 := evs4 ++ pollEvents k ++ killEvents serviceName svc5
                          ++ [Event.sleep cfg.TimeWaitBetweenStartups]
            (startService cfg serviceName rest st5).after evs5

/-! ## The log pump: `writeLine` and `startLogger` -/

/-- The inputs of one activation of `startLogger`. -/
structure LoggerRun where
  /-- The error of `LogCmd.StdinPipe()`, `none` for nil -/
  pipeErr : Option String
  /-- The error of `LogCmd.Start()`, `none` for nil -/
  startErr : Option String
  /-- The process id of the launched logger -/
  pid : Nat
  /-- The error of the write number `i` (from 0) on the stdin of this logger, `none` for nil -/
  writeErr : Nat → Option String
  /-- The value that `LogCmd.Wait()` delivers through `loggerDone` (line 188): `none` when
  this never happens, `some r` when the select receives `r` -/
  done : Option (Option String)
  /-- The case the select of lines 190-201 takes; both cases receive from `loggerDone`, so Go
  picks either: `true` for `case <-loggerDone`, `false` for `case err := <-loggerDone` -/
  firstCase : Bool

/-- What one Log Pump sees: the `Service` object and the lines the output stream `stdout`
still holds before its end.  The stream is read one line at a time: a scanner takes from it
exactly the lines its `Scan` has returned. -/
structure Pump where
  service : Service
  stdout : List String
  deriving DecidableEq, Repr

/-- The outcome of a call of `startLogger`. -/
structure LogRun where
  state : Pump
  trace : List Event
  status : Status
  deriving DecidableEq, Repr

/-- Put the actions `evs` in front of the trace of `r`. -/
def LogRun.after (evs : List Event) (r : LogRun) : LogRun :=
  { r with trace := evs ++ r.trace }

/-- The method `ServiceHandler.writeLine` (lines 124-128) on the stdin of logger `pid`, the
pipe answering `err`: the actions, and the error returned. -/
def writeLine (pid : Nat) (err : Option String) (line : String) :
    List Event × Option String :=
  ([Event.log .debug (.writing line), Event.write pid (line ++ "\n") err.isNone], err)

/-- The loop of lines 168-175 over the buffered lines, `i` writes having been made before:
the actions, and the number of writes made. -/
def replayLines (value : String) (pid : Nat) (writeErr : Nat → Option String) :
    Nat → List String → List Event × Nat
  | i, [] => ([], i)
  | i, line :: rest =>
    match writeLine pid (writeErr i) line with
    | (evs, some err) =>
      (evs ++ [Event.log .crit (.bufferedWriteError value err),
               Event.log .crit (.droppedLine value line)], i + 1)
    | (evs, none) =>
      let r := replayLines value pid writeErr (i + 1) rest
      (evs ++ r.1, r.2)

/-- Lines 166-177: the replay of `LogBuffer` on a new logger: the service afterwards, the
actions, and the number of writes made. -/
def replay (svc : Service) (pid : Nat) (writeErr : Nat → Option String) :
    Service × List Event × Nat :=
  if svc.LogBuffer.length > 0 then
    let r := replayLines svc.Value pid writeErr 0 svc.LogBuffer
    ({ svc with LogBuffer := [] }, Event.log .crit (.unhandledLines svc.Value) :: r.1, r.2)
  else
    (svc, [], 0)

/-- Lines 179-186: the scan loop, `i` writes having been made before: the service and the
output stream afterwards, and the actions. -/
def pumpLines (pid : Nat) (writeErr : Nat → Option String) :
    Nat → Service → List String → Service × List String × List Event
  | _, svc, [] => (svc, [], [])
  | i, svc, line :: rest =>
    match writeLine pid (writeErr i) line with
    | (evs, some _) =>
      ({ svc with LogBuffer := svc.LogBuffer ++ [line ++ "\n"] }, rest,
        evs ++ [Event.log .crit (.ioGoneAway svc.Value pid)])
    | (evs, none) =>
      let r := pumpLines pid writeErr (i + 1) svc rest
      (r.1, r.2.1, evs ++ r.2.2)

/-- Lines 166-186 on a logger that has been started: replay, then the scan loop. -/
def pumpOnce (svc : Service) (pid : Nat) (writeErr : Nat → Option String)
    (stdout : List String) : Service × List String × List Event :=
  let rp := replay svc pid writeErr
  let pm := pumpLines pid writeErr rp.2.2 rp.1 stdout
  (pm.1, pm.2.1, rp.2.1 ++ pm.2.2)

/-- The method `ServiceHandler.startLogger` (lines 145-202). -/
def startLogger : List LoggerRun → Pump → LogRun
  | [], st => ⟨st, [], .pending⟩
  | r :: rest, st =>
    let value := st.service.Value
    let svc1 := { st.service with LogCmd := some (loggerCommand value) }
    match r.pipeErr with
    | some err =>
      ⟨{ st with service := svc1 }, [Event.log .crit (.stdinPipeError value err)], .returned⟩
    | none =>
      match r.startErr with
      | some err =>
        ⟨{ st with service := svc1 },
          [Event.launchLogger false, Event.log .crit (.loggerStartError err)], .returned⟩
      | none =>
        let svc2 := { svc1 with
          LogCmd := some { loggerCommand value with process := some r.pid } }
        let pm := pumpOnce svc2 r.pid r.writeErr st.stdout
        let st3 : Pump := { service := pm.1, stdout := pm.2.1 }
        let evs3 := Event.launchLogger true :: pm.2.2
        match r.done with
        | none => ⟨st3, evs3, .loggerWaiting⟩
        | some err =>
          if r.firstCase then
            let evs4 := evs3 ++ [Event.loggerExited r.pid,
                                 Event.log .warning (.loggerDoneClean value)]
            if pm.1.LogBuffer.length > 0 then
              (startLogger rest st3).after evs4
            else
              ⟨st3, evs4, .returned⟩
          else
            let evs4 := evs3 ++ [Event.loggerExited r.pid,
                                 Event.log .warning (.loggerDoneError value err)]
            (startLogger rest st3).after evs4

/-! ## Reading a trace -/

/-- The bytes logger `pid` has received: the data of the writes that succeeded, in order. -/
def received (pid : Nat) : List Event → String
  | [] => ""
  | Event.write p data true :: evs =>
    if p = pid then data ++ received pid evs else received pid evs
  | _ :: evs => received pid evs

/-- Split at the newline character; `acc` holds the current line, reversed.  A last line
without newline is kept. -/
def splitLines : List Char → List Char → List String
  | acc, [] => if acc = [] then [] else [String.mk acc.reverse]
  | acc, c :: cs =>
    if c = Char.ofNat 10 then String.mk acc.reverse :: splitLines [] cs
    else splitLines (c :: acc) cs

/-- The newline-delimited lines logger `pid` has received. -/
def receivedLines (pid : Nat) (trace : List Event) : List String :=
  splitLines [] (received pid trace).data

/-- The number of processes `startService` has launched. -/
def launches (trace : List Event) : Nat :=
  (trace.filter (fun e => match e with | Event.launch _ true => true | _ => false)).length

/-- The number of calls of `Cmd.Start()` on a run executable. -/
def launchAttempts (trace : List Event) : Nat :=
  (trace.filter (fun e => match e with | Event.launch _ _ => true | _ => false)).length

/-- The events of critical severity. -/
def critEvents (trace : List Event) : List Event :=
  trace.filter (fun e => match e with | Event.log .crit _ => true | _ => false)

/-- The number of logger processes `startLogger` has launched. -/
def loggerLaunches (trace : List Event) : Nat :=
  (trace.filter (fun e => match e with | Event.launchLogger true => true | _ => false)).length

/-! ## The reconciliation loop: the branch of a service that is in `runningServices` -/

/-- The state after a launch that succeeded: the counter is incremented, the process handle is
recorded, and the service is in `runningServices`. -/
def launchedState (name : String) (a : Attempt) (st : Sup) : Sup :=
  { ptr := st.ptr,
    service :=
      { Value := st.service.Value,
        Startups := wrapInt (st.service.Startups + 1),
        Cmd := some ⟨"/" ++ st.service.Value ++ "/run", [], some a.pid⟩,
        LogCmd := st.service.LogCmd,
        LogBuffer := st.service.LogBuffer },
    runningServices := st.runningServices.insert name st.ptr }

/-- The state in which `startService` is entered again: as after the launch, the logger
handle being the one the polling loop has seen. -/
def restartState (name : String) (a : Attempt) (p : Nat) (st : Sup) : Sup :=
  { launchedState name a st with
    service :=
      { (launchedState name a st).service with
        LogCmd := some ⟨"./../multilog/multilog", ["-path", "/" ++ st.service.Value], some p⟩ } }

/-- The actions of an activation from the launch to the end of `Cmd.Wait()`. -/
def launchTrace (a : Attempt) (st : Sup) : List Event :=
  [Event.getServices, Event.log .warning (.starting st.service.Value),
   Event.launch ("/" ++ st.service.Value ++ "/run") true,
   Event.log .debug (.started a.pid st.service.Value), Event.spawnLogger]

/-- The actions of the restart path of lines 241-253, `r` being the result of `Cmd.Wait()`. -/
def restartTrace (cfg : ServiceConfig) (name : String) (r : Option String) (k p : Nat) :
    List Event :=
  [Event.exited, Event.log .warning (.restarting name r)] ++ pollEvents k ++
    [Event.log .warning (.killingLogger p), Event.killLogger p,
     Event.sleep cfg.TimeWaitBetweenStartups]

/-- Lines 239-256 of `startService`: the part of an activation that follows the return of
`Cmd.Wait()` with the result `err`, entered in the state `st` the supervisor has at that
moment; `loggerUp` is what the polling loop of lines 243-246 sees, as in `Attempt`, and `rest`
holds the inputs of the calls that follow. -/
def restartPath (cfg : ServiceConfig) (serviceName : String) (err : Option String)
    (loggerUp : Option (Nat × Nat)) (rest : List Attempt) (st : Sup) : Run :=
  let evs4 := [Event.exited, Event.log .warning (.restarting serviceName err)]
  match loggerUp with
  | none => ⟨st, evs4, .polling⟩
  | some (k, p) =>
    let svc5 := { st.service with
      LogCmd := some { loggerCommand st.service.Value with process := some p } }
    let st5 : Sup := { st with service := svc5 }
    (startService cfg serviceName rest st5).after
      (evs4 ++ pollEvents k ++ killEvents serviceName svc5
        ++ [Event.sleep cfg.TimeWaitBetweenStartups])

/-- Forget the result of `Cmd.Wait()` quoted in the restart warning of line 242. -/
def eraseExit : Event → Event
  | Event.log .warning (.restarting name _) => Event.log .warning (.restarting name none)
  | e => e

/-- The event of line 213. -/
def capEvent (name : String) : Event := Event.log .crit (.tooManyStartups name)

/-! ## Concrete inputs -/

/-- A configuration: at most 5 startups, 2 seconds between them. -/
def sampleConfig : ServiceConfig := ⟨5, 2⟩

/-- The service `svc-a` with `n` startups, no process and no logger. -/
def sampleService (n : Int) : Service := ⟨"svc-a", n, none, none, []⟩

/-- A handler of `svc-a` at address 1, with an empty `runningServices`. -/
def sampleSup (n : Int) : Sup := ⟨1, sampleService n, []⟩

/-- An activation in which `svc-a` is registered, the launch succeeds, the process exits with
code 0 and the logger is up at the first poll. -/
def sampleAttempt : Attempt := ⟨["svc-a"], none, 100, some none, some (0, 200)⟩

/-- The state of `svc-a` after five activations from 0 startups, each one a `sampleAttempt`:
`Startups` is at the cap of `sampleConfig`. -/
def cappedState : Sup :=
  (startService sampleConfig "svc-a" (List.replicate 5 sampleAttempt) (sampleSup 0)).state

/-- As `sampleAttempt`, the launch failing. -/
def failingAttempt : Attempt := ⟨["svc-a"], some "no such file", 100, none, none⟩

/-- As `sampleAttempt`, the registry not holding `svc-a` any more. -/
def unregisteredAttempt : Attempt := ⟨[], none, 100, some none, some (0, 200)⟩

/-- As `sampleAttempt`, the logger never getting a process handle. -/
def loggerlessAttempt : Attempt := ⟨["svc-a"], none, 100, some none, none⟩

/-- A logger input that takes the first `n` writes and rejects every later one. -/
def acceptFirst (n : Nat) : Nat → Option String :=
  fun i => if i < n then none else some "broken pipe"

/-- A logger that starts, takes `n` writes, then dies; the select takes `firstCase`. -/
def brokenLogger (pid n : Nat) (firstCase : Bool) : LoggerRun :=
  ⟨none, none, pid, acceptFirst n, some (some "signal: killed"), firstCase⟩

/-- A logger that starts and takes every write; its `Wait` delivers `done` and the select
takes `firstCase`. -/
def healthyLogger (pid : Nat) (done : Option String) (firstCase : Bool) : LoggerRun :=
  ⟨none, none, pid, fun _ => none, some done, firstCase⟩

/-- The state in which `startLogger` writes to a logger it has started (line 164). -/
def loggerStarted (svc : Service) (pid : Nat) : Service :=
  { svc with LogCmd := some ⟨"./../multilog/multilog", ["-path", "/" ++ svc.Value], some pid⟩ }

/-! # Theorems -/

/-! ## Lemmas on the trace readers -/

@[simp] theorem run_after_state (evs : List Event) (r : Run) : (r.after evs).state = r.state :=
  rfl

@[simp] theorem run_after_status (evs : List Event) (r : Run) :
    (r.after evs).status = r.status := rfl

@[simp] theorem run_after_trace (evs : List Event) (r : Run) :
    (r.after evs).trace = evs ++ r.trace := rfl

theorem launches_append (t u : List Event) : launches (t ++ u) = launches t + launches u := by
  simp [launches]

theorem launchAttempts_append (t u : List Event) :
    launchAttempts (t ++ u) = launchAttempts t + launchAttempts u := by
  simp [launchAttempts]

@[simp] theorem launches_pollEvents (k : Nat) : launches (pollEvents k) = 0 := by
  induction k with
  | zero => rfl
  | succ k ih => simpa [pollEvents, launches] using ih

@[simp] theorem launchAttempts_pollEvents (k : Nat) : launchAttempts (pollEvents k) = 0 := by
  induction k with
  | zero => rfl
  | succ k ih => simpa [pollEvents, launchAttempts] using ih

theorem launches_restart (cfg : ServiceConfig) (name : String) (a : Attempt) (st : Sup)
    (r : Option String) (k p : Nat) :
    launches (launchTrace a st ++ restartTrace cfg name r k p) = 1 := by
  rw [launches_append]
  unfold restartTrace
  rw [launches_append, launches_append, launches_pollEvents]
  rfl

theorem launchAttempts_restart (cfg : ServiceConfig) (name : String) (a : Attempt) (st : Sup)
    (r : Option String) (k p : Nat) :
    launchAttempts (launchTrace a st ++ restartTrace cfg name r k p) = 1 := by
  rw [launchAttempts_append]
  unfold restartTrace
  rw [launchAttempts_append, launchAttempts_append, launchAttempts_pollEvents]
  rfl

theorem contains_insert (m : ServiceMap) (name : String) (ptr : Nat) :
    (m.insert name ptr).contains name = true := by
  simp [ServiceMap.insert, ServiceMap.contains]

/-! ## Lemmas on machine integers -/

theorem wrapInt_succ (s m : Int) (hs : InIntRange s) (hm : InIntRange m) (h : ¬ s ≥ m) :
    wrapInt (s + 1) = s + 1 := by
  unfold InIntRange at hs hm
  unfold wrapInt
  omega

theorem inIntRange_succ (s m : Int) (hs : InIntRange s) (hm : InIntRange m) (h : ¬ s ≥ m) :
    InIntRange (s + 1) := by
  unfold InIntRange at *
  omega

/-! ## The paths of `startService` -/

theorem startService_cap (cfg : ServiceConfig) (name : String) (env : List Attempt) (st : Sup)
    (h : st.service.Startups ≥ cfg.MaxFailedStartups) :
    startService cfg name env st
      = ⟨st, [Event.log .crit (.tooManyStartups name)], .returned⟩ := by
  cases env <;> simp [startService, h]

theorem startService_nil (cfg : ServiceConfig) (name : String) (st : Sup)
    (h : ¬ st.service.Startups ≥ cfg.MaxFailedStartups) :
    startService cfg name [] st = ⟨st, [], .pending⟩ := by
  simp [startService, h]

theorem startService_unregistered (cfg : ServiceConfig) (name : String) (a : Attempt)
    (rest : List Attempt) (st : Sup) (h : ¬ st.service.Startups ≥ cfg.MaxFailedStartups)
    (hk : name ∉ a.knownServices) :
    startService cfg name (a :: rest) st = ⟨st, [Event.getServices], .returned⟩ := by
  simp [startService, h, hk]

theorem startService_not_startable (cfg : ServiceConfig) (name : String) (a : Attempt)
    (rest : List Attempt) (st : Sup) (err : String)
    (h : ¬ st.service.Startups ≥ cfg.MaxFailedStartups) (hk : name ∈ a.knownServices)
    (hs : a.startErr = some err) :
    startService cfg name (a :: rest) st =
      ⟨{ st with service :=
          { st.service with
            Cmd := some ⟨"/" ++ st.service.Value ++ "/run", [], none⟩,
            Startups := wrapInt (st.service.Startups + 1) } },
        [Event.getServices, Event.log .warning (.starting st.service.Value),
         Event.launch ("/" ++ st.service.Value ++ "/run") false,
         Event.log .crit (.notStartable name err)],
        .returned⟩ := by
  simp [startService, h, hk, hs, execCommand]

theorem startService_waiting (cfg : ServiceConfig) (name : String) (a : Attempt)
    (rest : List Attempt) (st : Sup)
    (h : ¬ st.service.Startups ≥ cfg.MaxFailedStartups) (hk : name ∈ a.knownServices)
    (hs : a.startErr = none) (hw : a.waitResult = none) :
    startService cfg name (a :: rest) st
      = ⟨launchedState name a st, launchTrace a st, .waiting⟩ := by
  simp [startService, h, hk, hs, hw, execCommand, launchedState, launchTrace]

theorem startService_polling (cfg : ServiceConfig) (name : String) (a : Attempt)
    (rest : List Attempt) (st : Sup) (r : Option String)
    (h : ¬ st.service.Startups ≥ cfg.MaxFailedStartups) (hk : name ∈ a.knownServices)
    (hs : a.startErr = none) (hw : a.waitResult = some r) (hl : a.loggerUp = none) :
    startService cfg name (a :: rest) st
      = ⟨launchedState name a st,
          launchTrace a st ++ [Event.exited, Event.log .warning (.restarting name r)],
          .polling⟩ := by
  simp [startService, h, hk, hs, hw, hl, execCommand, launchedState, launchTrace]

theorem startService_restart (cfg : ServiceConfig) (name : String) (a : Attempt)
    (rest : List Attempt) (st : Sup) (r : Option String) (k p : Nat)
    (h : ¬ st.service.Startups ≥ cfg.MaxFailedStartups) (hk : name ∈ a.knownServices)
    (hs : a.startErr = none) (hw : a.waitResult = some r) (hl : a.loggerUp = some (k, p)) :
    startService cfg name (a :: rest) st
      = (startService cfg name rest (restartState name a p st)).after
          (launchTrace a st ++ restartTrace cfg name r k p) := by
  simp [startService, h, hk, hs, hw, hl, execCommand, launchedState, launchTrace, restartState,
    restartTrace, killEvents, loggerCommand]

/-! ## The startup counter and the cap -/

theorem startService_startups_mono (cfg : ServiceConfig) (name : String)
    (hm : InIntRange cfg.MaxFailedStartups) (env : List Attempt) :
    ∀ st : Sup, InIntRange st.service.Startups →
      st.service.Startups ≤ (startService cfg name env st).state.service.Startups := by
  induction env with
  | nil =>
    intro st _
    by_cases h : st.service.Startups ≥ cfg.MaxFailedStartups
    · rw [startService_cap cfg name [] st h]
    · rw [startService_nil cfg name st h]
  | cons a rest ih =>
    intro st hs
    by_cases h : st.service.Startups ≥ cfg.MaxFailedStartups
    · rw [startService_cap cfg name _ st h]
    · have hw := wrapInt_succ _ _ hs hm h
      by_cases hk : name ∈ a.knownServices
      · cases hst : a.startErr with
        | some err =>
          rw [startService_not_startable cfg name a rest st err h hk hst]
          simp only [hw]; omega
        | none =>
          cases hwr : a.waitResult with
          | none =>
            rw [startService_waiting cfg name a rest st h hk hst hwr]
            simp only [launchedState, hw]; omega
          | some r =>
            cases hl : a.loggerUp with
            | none =>
              rw [startService_polling cfg name a rest st r h hk hst hwr hl]
              simp only [launchedState, hw]; omega
            | some kp =>
              obtain ⟨k, p⟩ := kp
              rw [startService_restart cfg name a rest st r k p h hk hst hwr hl]
              have h5 : (restartState name a p st).service.Startups
                  = st.service.Startups + 1 := by
                simp only [restartState, launchedState, hw]
              have := ih (restartState name a p st)
                (by rw [h5]; exact inIntRange_succ _ _ hs hm h)
              simp only [run_after_state]
              omega
      · rw [startService_unregistered cfg name a rest st h hk]

/-- C1. A call of `startService` that reaches the launch of the run executable (cap not
reached, service registered) leaves `Startups` at exactly `n + 1` after its one launch
attempt, whether the launch succeeds or fails; a call that aborts before the launch makes no
launch attempt and leaves `Startups` at `n`; and whatever the inputs of the whole chain of
calls, `Startups` is never lower afterwards than before. -/
theorem startService_startups_counter (cfg : ServiceConfig) (name : String) (a : Attempt)
    (rest env : List Attempt) (st : Sup)
    (hs : InIntRange st.service.Startups) (hm : InIntRange cfg.MaxFailedStartups) :
    ((¬ st.service.Startups ≥ cfg.MaxFailedStartups ∧ name ∈ a.knownServices) →
      (startService cfg name [a] st).state.service.Startups = st.service.Startups + 1 ∧
      launchAttempts (startService cfg name [a] st).trace = 1) ∧
    ((st.service.Startups ≥ cfg.MaxFailedStartups ∨ name ∉ a.knownServices) →
      (startService cfg name (a :: rest) st).state.service.Startups = st.service.Startups ∧
      launchAttempts (startService cfg name (a :: rest) st).trace = 0) ∧
    st.service.Startups ≤ (startService cfg name env st).state.service.Startups := by
  refine ⟨?_, ?_, startService_startups_mono cfg name hm env st hs⟩
  · rintro ⟨h, hk⟩
    have hw := wrapInt_succ _ _ hs hm h
    cases hst : a.startErr with
    | some err =>
      rw [startService_not_startable cfg name a [] st err h hk hst]
      exact ⟨hw, rfl⟩
    | none =>
      cases hwr : a.waitResult with
      | none =>
        rw [startService_waiting cfg name a [] st h hk hst hwr]
        exact ⟨hw, rfl⟩
      | some r =>
        cases hl : a.loggerUp with
        | none =>
          rw [startService_polling cfg name a [] st r h hk hst hwr hl]
          exact ⟨hw, rfl⟩
        | some kp =>
          obtain ⟨k, p⟩ := kp
          rw [startService_restart cfg name a [] st r k p h hk hst hwr hl]
          have h5 : (restartState name a p st).service.Startups
              = st.service.Startups + 1 := by
            simp only [restartState, launchedState, hw]
          by_cases h' : (restartState name a p st).service.Startups ≥ cfg.MaxFailedStartups
          · rw [startService_cap cfg name [] _ h']
            refine ⟨h5, ?_⟩
            rw [run_after_trace, launchAttempts_append, launchAttempts_restart]
            rfl
          · rw [startService_nil cfg name _ h']
            refine ⟨h5, ?_⟩
            rw [run_after_trace, launchAttempts_append, launchAttempts_restart]
            rfl
  · intro h
    by_cases hc : st.service.Startups ≥ cfg.MaxFailedStartups
    · rw [startService_cap cfg name _ st hc]
      exact ⟨rfl, rfl⟩
    · have hk : name ∉ a.knownServices := h.resolve_left hc
      rw [startService_unregistered cfg name a rest st hc hk]
      exact ⟨rfl, rfl⟩

/-- Witness for C1: a failing launch from 0 startups, an abort on an unregistered service, and a chain of two restarts. -/
theorem startService_startups_counter_witness :
    (InIntRange (sampleSup 0).service.Startups ∧ InIntRange sampleConfig.MaxFailedStartups) ∧
    ((startService sampleConfig "svc-a" [failingAttempt] (sampleSup 0)).state.service.Startups
        = (sampleSup 0).service.Startups + 1 ∧
      launchAttempts (startService sampleConfig "svc-a" [failingAttempt] (sampleSup 0)).trace
        = 1) ∧
    ((startService sampleConfig "svc-a" (unregisteredAttempt :: [sampleAttempt])
        (sampleSup 0)).state.service.Startups = (sampleSup 0).service.Startups ∧
      launchAttempts (startService sampleConfig "svc-a" (unregisteredAttempt :: [sampleAttempt])
        (sampleSup 0)).trace = 0) ∧
    (sampleSup 0).service.Startups ≤
      (startService sampleConfig "svc-a" [sampleAttempt, sampleAttempt]
        (sampleSup 0)).state.service.Startups :=
  ⟨by decide,
   (startService_startups_counter sampleConfig "svc-a" failingAttempt []
     [] (sampleSup 0) (by decide) (by decide)).1 ⟨by decide, by decide⟩,
   (startService_startups_counter sampleConfig "svc-a" unregisteredAttempt [sampleAttempt]
     [] (sampleSup 0) (by decide) (by decide)).2.1 (Or.inr (by decide)),
   (startService_startups_counter sampleConfig "svc-a" sampleAttempt []
     [sampleAttempt, sampleAttempt] (sampleSup 0) (by decide) (by decide)).2.2⟩

/-- C2. When `Startups` has reached `MaxFailedStartups`, `startService` returns at once: its
only action is the critical event of line 213 (no launch of a process, no Log Pump, no sleep
and no further call), and the state is the one it was entered with, so `Startups`, the process
handle and `runningServices`, with the entry of the service, are unchanged. -/
theorem startService_cap_reached (cfg : ServiceConfig) (name : String) (env : List Attempt)
    (st : Sup) (h : st.service.Startups ≥ cfg.MaxFailedStartups) :
    (startService cfg name env st).status = .returned ∧
    (startService cfg name env st).trace = [Event.log .crit (.tooManyStartups name)] ∧
    launchAttempts (startService cfg name env st).trace = 0 ∧
    Event.spawnLogger ∉ (startService cfg name env st).trace ∧
    (startService cfg name env st).state.service.Startups = st.service.Startups ∧
    (startService cfg name env st).state.service.Cmd = st.service.Cmd ∧
    (startService cfg name env st).state.runningServices = st.runningServices ∧
    (startService cfg name env st).state.runningServices.lookup name
      = st.runningServices.lookup name := by
  rw [startService_cap cfg name env st h]
  refine ⟨rfl, rfl, rfl, ?_, rfl, rfl, rfl, rfl⟩
  simp

/-- Witness for C2: 5 startups under a cap of 5. -/
theorem startService_cap_reached_witness :
    (sampleSup 5).service.Startups ≥ sampleConfig.MaxFailedStartups ∧
    (startService sampleConfig "svc-a" [sampleAttempt] (sampleSup 5)).status = .returned ∧
    (startService sampleConfig "svc-a" [sampleAttempt] (sampleSup 5)).trace
      = [Event.log .crit (.tooManyStartups "svc-a")] ∧
    launchAttempts (startService sampleConfig "svc-a" [sampleAttempt] (sampleSup 5)).trace = 0 ∧
    Event.spawnLogger ∉ (startService sampleConfig "svc-a" [sampleAttempt] (sampleSup 5)).trace ∧
    (startService sampleConfig "svc-a" [sampleAttempt] (sampleSup 5)).state.service.Startups
      = (sampleSup 5).service.Startups ∧
    (startService sampleConfig "svc-a" [sampleAttempt] (sampleSup 5)).state.service.Cmd
      = (sampleSup 5).service.Cmd ∧
    (startService sampleConfig "svc-a" [sampleAttempt] (sampleSup 5)).state.runningServices
      = (sampleSup 5).runningServices ∧
    (startService sampleConfig "svc-a" [sampleAttempt]
        (sampleSup 5)).state.runningServices.lookup "svc-a"
      = (sampleSup 5).runningServices.lookup "svc-a" :=
  ⟨by decide,
   startService_cap_reached sampleConfig "svc-a" [sampleAttempt] (sampleSup 5) (by decide)⟩

/-- C7. When the launch of the run executable fails, the call returns after the critical
event of line 231: `runningServices` is the map it was entered with, no Log Pump is spawned,
there is no sleep and no further call of `startService`, and no process has been launched. -/
theorem startService_launch_failure (cfg : ServiceConfig) (name : String) (a : Attempt)
    (rest : List Attempt) (st : Sup) (err : String)
    (h : ¬ st.service.Startups ≥ cfg.MaxFailedStartups) (hk : name ∈ a.knownServices)
    (hs : a.startErr = some err) :
    (startService cfg name (a :: rest) st).status = .returned ∧
    (startService cfg name (a :: rest) st).state.runningServices = st.runningServices ∧
    (startService cfg name (a :: rest) st).trace
      = [Event.getServices, Event.log .warning (.starting st.service.Value),
         Event.launch ("/" ++ st.service.Value ++ "/run") false,
         Event.log .crit (.notStartable name err)] ∧
    Event.spawnLogger ∉ (startService cfg name (a :: rest) st).trace ∧
    (∀ n, Event.sleep n ∉ (startService cfg name (a :: rest) st).trace) ∧
    launches (startService cfg name (a :: rest) st).trace = 0 ∧
    launchAttempts (startService cfg name (a :: rest) st).trace = 1 ∧
    critEvents (startService cfg name (a :: rest) st).trace
      = [Event.log .crit (.notStartable name err)] := by
  rw [startService_not_startable cfg name a rest st err h hk hs]
  refine ⟨rfl, rfl, rfl, ?_, ?_, rfl, rfl, rfl⟩
  · simp
  · intro n; simp

/-- Witness for C7: the run executable of `svc-a` cannot be started. -/
theorem startService_launch_failure_witness :
    (¬ (sampleSup 0).service.Startups ≥ sampleConfig.MaxFailedStartups ∧
      "svc-a" ∈ failingAttempt.knownServices ∧
      failingAttempt.startErr = some "no such file") ∧
    ((startService sampleConfig "svc-a" (failingAttempt :: [sampleAttempt])
        (sampleSup 0)).status = .returned ∧
    (startService sampleConfig "svc-a" (failingAttempt :: [sampleAttempt])
        (sampleSup 0)).state.runningServices = (sampleSup 0).runningServices ∧
    (startService sampleConfig "svc-a" (failingAttempt :: [sampleAttempt]) (sampleSup 0)).trace
      = [Event.getServices, Event.log .warning (.starting (sampleSup 0).service.Value),
         Event.launch ("/" ++ (sampleSup 0).service.Value ++ "/run") false,
         Event.log .crit (.notStartable "svc-a" "no such file")] ∧
    Event.spawnLogger ∉
      (startService sampleConfig "svc-a" (failingAttempt :: [sampleAttempt])
        (sampleSup 0)).trace ∧
    (∀ n, Event.sleep n ∉
      (startService sampleConfig "svc-a" (failingAttempt :: [sampleAttempt])
        (sampleSup 0)).trace) ∧
    launches (startService sampleConfig "svc-a" (failingAttempt :: [sampleAttempt])
        (sampleSup 0)).trace = 0 ∧
    launchAttempts (startService sampleConfig "svc-a" (failingAttempt :: [sampleAttempt])
        (sampleSup 0)).trace = 1 ∧
    critEvents (startService sampleConfig "svc-a" (failingAttempt :: [sampleAttempt])
        (sampleSup 0)).trace = [Event.log .crit (.notStartable "svc-a" "no such file")]) :=
  ⟨by decide,
   startService_launch_failure sampleConfig "svc-a" failingAttempt [sampleAttempt]
     (sampleSup 0) "no such file" (by decide) (by decide) rfl⟩

/-- C8, as stated, fails: `svc-a` has been started five times under a cap of 5 and is then
removed from the registry; the next call of `startService` emits the critical event of
line 213, the cap being tested before the registry is read. -/
theorem startService_unregistered_at_cap_emits_crit :
    cappedState.service.Startups = 5 ∧
    "svc-a" ∉ unregisteredAttempt.knownServices ∧
    critEvents (startService sampleConfig "svc-a" [unregisteredAttempt] cappedState).trace
      = [Event.log .crit (.tooManyStartups "svc-a")] := by
  decide

/-- C8, amended. For a service that is no longer in the registry and whose `Startups` is below
`MaxFailedStartups`, the call returns after reading the registry: no process and no Log Pump
is launched, no critical event is emitted, and the state (`Startups`, `runningServices`) is
the one it was entered with. -/
theorem startService_unregistered_below_cap (cfg : ServiceConfig) (name : String)
    (a : Attempt) (rest : List Attempt) (st : Sup)
    (h : st.service.Startups < cfg.MaxFailedStartups) (hk : name ∉ a.knownServices) :
    (startService cfg name (a :: rest) st).status = .returned ∧
    (startService cfg name (a :: rest) st).trace = [Event.getServices] ∧
    launchAttempts (startService cfg name (a :: rest) st).trace = 0 ∧
    Event.spawnLogger ∉ (startService cfg name (a :: rest) st).trace ∧
    critEvents (startService cfg name (a :: rest) st).trace = [] ∧
    (startService cfg name (a :: rest) st).state = st := by
  rw [startService_unregistered cfg name a rest st (by omega) hk]
  refine ⟨rfl, rfl, rfl, ?_, rfl, rfl⟩
  simp

/-- Witness for C8, amended: `svc-a` has 4 startups under a cap of 5 and is gone from the registry. -/
theorem startService_unregistered_below_cap_witness :
    ((sampleSup 4).service.Startups < sampleConfig.MaxFailedStartups ∧
      "svc-a" ∉ unregisteredAttempt.knownServices) ∧
    ((startService sampleConfig "svc-a" (unregisteredAttempt :: [sampleAttempt])
        (sampleSup 4)).status = .returned ∧
    (startService sampleConfig "svc-a" (unregisteredAttempt :: [sampleAttempt])
        (sampleSup 4)).trace = [Event.getServices] ∧
    launchAttempts (startService sampleConfig "svc-a" (unregisteredAttempt :: [sampleAttempt])
        (sampleSup 4)).trace = 0 ∧
    Event.spawnLogger ∉ (startService sampleConfig "svc-a"
        (unregisteredAttempt :: [sampleAttempt]) (sampleSup 4)).trace ∧
    critEvents (startService sampleConfig "svc-a" (unregisteredAttempt :: [sampleAttempt])
        (sampleSup 4)).trace = [] ∧
    (startService sampleConfig "svc-a" (unregisteredAttempt :: [sampleAttempt])
        (sampleSup 4)).state = sampleSup 4) :=
  ⟨by decide,
   startService_unregistered_below_cap sampleConfig "svc-a" unregisteredAttempt
     [sampleAttempt] (sampleSup 4) (by decide) (by decide)⟩

/-! ## Exit values, eviction and the chain of restarts -/

theorem restartTrace_eraseExit (cfg : ServiceConfig) (name : String) (r1 r2 : Option String)
    (k p : Nat) :
    (restartTrace cfg name r1 k p).map eraseExit = (restartTrace cfg name r2 k p).map eraseExit := by
  simp [restartTrace, eraseExit]

theorem startService_exit_agree (cfg : ServiceConfig) (name : String) (a1 a2 : Attempt)
    (rest : List Attempt) (st : Sup) (r1 r2 : Option String)
    (hk : a1.knownServices = a2.knownServices) (hs : a1.startErr = a2.startErr)
    (hp : a1.pid = a2.pid) (hl : a1.loggerUp = a2.loggerUp)
    (hw1 : a1.waitResult = some r1) (hw2 : a2.waitResult = some r2) :
    (startService cfg name (a1 :: rest) st).state
      = (startService cfg name (a2 :: rest) st).state ∧
    (startService cfg name (a1 :: rest) st).status
      = (startService cfg name (a2 :: rest) st).status ∧
    (startService cfg name (a1 :: rest) st).trace.map eraseExit
      = (startService cfg name (a2 :: rest) st).trace.map eraseExit := by
  by_cases h : st.service.Startups ≥ cfg.MaxFailedStartups
  · rw [startService_cap cfg name (a1 :: rest) st h, startService_cap cfg name (a2 :: rest) st h]
    exact ⟨rfl, rfl, rfl⟩
  by_cases hk1 : name ∈ a1.knownServices
  swap
  · rw [startService_unregistered cfg name a1 rest st h hk1,
      startService_unregistered cfg name a2 rest st h (hk ▸ hk1)]
    exact ⟨rfl, rfl, rfl⟩
  have hk2 : name ∈ a2.knownServices := hk ▸ hk1
  cases hst : a1.startErr with
  | some err =>
    rw [startService_not_startable cfg name a1 rest st err h hk1 hst,
      startService_not_startable cfg name a2 rest st err h hk2 (hs ▸ hst)]
    exact ⟨rfl, rfl, rfl⟩
  | none =>
    have hst2 : a2.startErr = none := hs ▸ hst
    have hlt : launchTrace a1 st = launchTrace a2 st := by simp [launchTrace, hp]
    have hls : launchedState name a1 st = launchedState name a2 st := by
      simp [launchedState, hp]
    cases hl1 : a1.loggerUp with
    | none =>
      rw [startService_polling cfg name a1 rest st r1 h hk1 hst hw1 hl1,
        startService_polling cfg name a2 rest st r2 h hk2 hst2 hw2 (hl ▸ hl1), hlt, hls]
      refine ⟨rfl, rfl, ?_⟩
      simp [eraseExit]
    | some kp =>
      obtain ⟨k, p⟩ := kp
      have hrs : restartState name a1 p st = restartState name a2 p st := by
        simp [restartState, hls]
      rw [startService_restart cfg name a1 rest st r1 k p h hk1 hst hw1 hl1,
        startService_restart cfg name a2 rest st r2 k p h hk2 hst2 hw2 (hl ▸ hl1), hlt, hrs]
      refine ⟨rfl, rfl, ?_⟩
      simp only [run_after_trace, List.map_append, restartTrace_eraseExit cfg name r1 r2]

/-- C6, as stated, fails: `svc-a` is launched and its process exits, with a nil result in one
run and with an error in the other, but the logger never gets a process handle.  In both runs
the call spins in the loop of lines 243-246: its actions end with the restart warning, so the
logger is not killed, there is no sleep and `startService` is not called again. -/
theorem restart_path_stalls_without_logger :
    (startService sampleConfig "svc-a"
      [{ loggerlessAttempt with waitResult := some none }, sampleAttempt]
      (sampleSup 0)).status = .polling ∧
    (startService sampleConfig "svc-a"
      [{ loggerlessAttempt with waitResult := some none }, sampleAttempt]
      (sampleSup 0)).trace
      = [Event.getServices, Event.log .warning (.starting "svc-a"),
         Event.launch "/svc-a/run" true, Event.log .debug (.started 100 "svc-a"),
         Event.spawnLogger, Event.exited,
         Event.log .warning (.restarting "svc-a" none)] ∧
    (startService sampleConfig "svc-a"
      [{ loggerlessAttempt with waitResult := some (some "exit status 1") }, sampleAttempt]
      (sampleSup 0)).status = .polling ∧
    (startService sampleConfig "svc-a"
      [{ loggerlessAttempt with waitResult := some (some "exit status 1") }, sampleAttempt]
      (sampleSup 0)).trace
      = [Event.getServices, Event.log .warning (.starting "svc-a"),
         Event.launch "/svc-a/run" true, Event.log .debug (.started 100 "svc-a"),
         Event.spawnLogger, Event.exited,
         Event.log .warning (.restarting "svc-a" (some "exit status 1"))] := by
  decide

/-- C6, amended. The result of `Cmd.Wait()` does not steer `startService`: two runs whose
inputs differ only in that result end in the same state and the same way, with the same
actions but for the result quoted in the warning of line 242; and once the logger's process
handle has been seen (after `k` polls), the path is the one of lines 241-254 for every result:
the warning, the kill of the logger, the sleep of `TimeWaitBetweenStartups` seconds, and the
next call of `startService`. -/
theorem startService_exit_value_irrelevant (cfg : ServiceConfig) (name : String) (a : Attempt)
    (rest : List Attempt) (st : Sup) (r1 r2 : Option String) :
    (startService cfg name ({ a with waitResult := some r1 } :: rest) st).state
      = (startService cfg name ({ a with waitResult := some r2 } :: rest) st).state ∧
    (startService cfg name ({ a with waitResult := some r1 } :: rest) st).status
      = (startService cfg name ({ a with waitResult := some r2 } :: rest) st).status ∧
    (startService cfg name ({ a with waitResult := some r1 } :: rest) st).trace.map eraseExit
      = (startService cfg name ({ a with waitResult := some r2 } :: rest) st).trace.map
          eraseExit ∧
    (¬ st.service.Startups ≥ cfg.MaxFailedStartups → name ∈ a.knownServices →
      a.startErr = none → ∀ k p, a.loggerUp = some (k, p) →
      startService cfg name ({ a with waitResult := some r1 } :: rest) st
        = (startService cfg name rest (restartState name a p st)).after
            (launchTrace a st ++
              ([Event.exited, Event.log .warning (.restarting name r1)] ++ pollEvents k ++
                [Event.log .warning (.killingLogger p), Event.killLogger p,
                 Event.sleep cfg.TimeWaitBetweenStartups]))) := by
  have hagree := startService_exit_agree cfg name { a with waitResult := some r1 }
    { a with waitResult := some r2 } rest st r1 r2 rfl rfl rfl rfl rfl rfl
  refine ⟨hagree.1, hagree.2.1, hagree.2.2, ?_⟩
  intro h hk hst k p hl
  exact startService_restart cfg name _ rest st r1 k p h hk hst rfl hl

/-- Witness for C6, amended: exit status 1 and exit status 0 of `svc-a`. -/
theorem startService_exit_value_irrelevant_witness :
    (¬ (sampleSup 0).service.Startups ≥ sampleConfig.MaxFailedStartups ∧
      "svc-a" ∈ sampleAttempt.knownServices ∧ sampleAttempt.startErr = none ∧
      sampleAttempt.loggerUp = some (0, 200)) ∧
    startService sampleConfig "svc-a"
        ({ sampleAttempt with waitResult := some (some "exit status 1") } :: [sampleAttempt])
        (sampleSup 0)
      = (startService sampleConfig "svc-a" [sampleAttempt]
          (restartState "svc-a" sampleAttempt 200 (sampleSup 0))).after
          (launchTrace sampleAttempt (sampleSup 0) ++
            ([Event.exited, Event.log .warning (.restarting "svc-a" (some "exit status 1"))]
              ++ pollEvents 0 ++
              [Event.log .warning (.killingLogger 200), Event.killLogger 200,
               Event.sleep sampleConfig.TimeWaitBetweenStartups])) :=
  ⟨by decide,
   (startService_exit_value_irrelevant sampleConfig "svc-a" sampleAttempt [sampleAttempt]
     (sampleSup 0) (some "exit status 1") none).2.2.2 (by decide) (by decide) rfl 0 200 rfl⟩

theorem startService_keeps_running (cfg : ServiceConfig) (name : String)
    (env : List Attempt) :
    ∀ st : Sup, st.runningServices.contains name = true →
      (startService cfg name env st).state.runningServices.contains name = true := by
  induction env with
  | nil =>
    intro st hc
    by_cases h : st.service.Startups ≥ cfg.MaxFailedStartups
    · rw [startService_cap cfg name [] st h]; exact hc
    · rw [startService_nil cfg name st h]; exact hc
  | cons a rest ih =>
    intro st hc
    by_cases h : st.service.Startups ≥ cfg.MaxFailedStartups
    · rw [startService_cap cfg name _ st h]; exact hc
    by_cases hk : name ∈ a.knownServices
    swap
    · rw [startService_unregistered cfg name a rest st h hk]; exact hc
    cases hst : a.startErr with
    | some err =>
      rw [startService_not_startable cfg name a rest st err h hk hst]; exact hc
    | none =>
      cases hwr : a.waitResult with
      | none =>
        rw [startService_waiting cfg name a rest st h hk hst hwr]
        exact contains_insert _ _ _
      | some r =>
        cases hl : a.loggerUp with
        | none =>
          rw [startService_polling cfg name a rest st r h hk hst hwr hl]
          exact contains_insert _ _ _
        | some kp =>
          obtain ⟨k, p⟩ := kp
          rw [startService_restart cfg name a rest st r k p h hk hst hwr hl]
          exact ih _ (contains_insert _ _ _)

theorem startService_launched (cfg : ServiceConfig) (name : String) (a : Attempt)
    (rest : List Attempt) (st : Sup)
    (h : ¬ st.service.Startups ≥ cfg.MaxFailedStartups) (hk : name ∈ a.knownServices)
    (hst : a.startErr = none) :
    1 ≤ launches (startService cfg name (a :: rest) st).trace ∧
    (startService cfg name (a :: rest) st).state.runningServices.contains name = true := by
  cases hwr : a.waitResult with
  | none =>
    rw [startService_waiting cfg name a rest st h hk hst hwr]
    exact ⟨Nat.le_refl 1, contains_insert _ _ _⟩
  | some r =>
    cases hl : a.loggerUp with
    | none =>
      rw [startService_polling cfg name a rest st r h hk hst hwr hl]
      refine ⟨?_, contains_insert _ _ _⟩
      rw [launches_append]
      exact Nat.le_add_right 1 _
    | some kp =>
      obtain ⟨k, p⟩ := kp
      rw [startService_restart cfg name a rest st r k p h hk hst hwr hl]
      refine ⟨?_, startService_keeps_running cfg name rest _ (contains_insert _ _ _)⟩
      rw [run_after_trace, launches_append, launches_restart]
      exact Nat.le_add_right 1 _

theorem startService_eq_restartPath (cfg : ServiceConfig) (name : String) (a : Attempt)
    (rest : List Attempt) (st : Sup) (r : Option String)
    (h : ¬ st.service.Startups ≥ cfg.MaxFailedStartups) (hk : name ∈ a.knownServices)
    (hs : a.startErr = none) (hw : a.waitResult = some r) :
    startService cfg name (a :: rest) st
      = (restartPath cfg name r a.loggerUp rest (launchedState name a st)).after
          (launchTrace a st) := by
  cases hl : a.loggerUp with
  | none =>
    rw [startService_polling cfg name a rest st r h hk hs hw hl]
    rfl
  | some kp =>
    obtain ⟨k, p⟩ := kp
    rw [startService_restart cfg name a rest st r k p h hk hs hw hl]
    simp [restartPath, restartState, launchedState, restartTrace, killEvents, loggerCommand,
      execCommand, Run.after]

theorem count_capEvent_pollEvents (name : String) (k : Nat) :
    (pollEvents k).count (capEvent name) = 0 := by
  induction k with
  | zero => rfl
  | succ k ih => simpa [pollEvents, capEvent, List.count_cons] using ih

theorem count_capEvent_restart (cfg : ServiceConfig) (name : String) (a : Attempt) (st : Sup)
    (r : Option String) (k p : Nat) :
    (launchTrace a st ++ restartTrace cfg name r k p).count (capEvent name) = 0 := by
  have := count_capEvent_pollEvents name k
  simp only [capEvent] at this
  simp [launchTrace, restartTrace, List.count_cons, List.count_append, this, capEvent]

theorem getLast?_append_of_some (t u : List Event) (e : Event) (h : u.getLast? = some e) :
    (t ++ u).getLast? = some e := by
  rw [List.getLast?_append, h]; rfl

/-- C10, as stated, fails: the cap is 2, `Startups` is 0, `svc-a` stays registered, every
launch succeeds and every launched process exits, but the logger never gets a process handle;
the first call spins in the loop of lines 243-246, so the chain does not end and one process
is launched, not two. -/
theorem chain_stalls_without_logger :
    (sampleSup 0).service.Startups ≤ (⟨2, 0⟩ : ServiceConfig).MaxFailedStartups ∧
    (∀ a ∈ [loggerlessAttempt, loggerlessAttempt, loggerlessAttempt],
      "svc-a" ∈ a.knownServices ∧ a.startErr = none ∧ a.waitResult ≠ none) ∧
    (startService ⟨2, 0⟩ "svc-a" [loggerlessAttempt, loggerlessAttempt, loggerlessAttempt]
      (sampleSup 0)).status = .polling ∧
    launches (startService ⟨2, 0⟩ "svc-a"
      [loggerlessAttempt, loggerlessAttempt, loggerlessAttempt] (sampleSup 0)).trace = 1 ∧
    (startService ⟨2, 0⟩ "svc-a" [loggerlessAttempt, loggerlessAttempt, loggerlessAttempt]
      (sampleSup 0)).state.service.Startups = 1 := by
  decide

/-- C10, amended. Let the cap be `M` and `Startups = s ≤ M`; let the service stay registered,
every launch succeed, every launched process exit and, after every exit, the logger's process
handle be seen by the polling loop.  Then the chain of calls of `startService` ends once it
has been given `M - s` activations: it has launched exactly `M - s` processes, `Startups` is
`M`, and the critical event of the cap is emitted once, as the last action.  With fewer
activations the chain has not ended: every activation has launched a process, and no call has
returned. -/
theorem startService_chain (cfg : ServiceConfig) (name : String) (env : List Attempt) :
    ∀ st : Sup, InIntRange st.service.Startups → InIntRange cfg.MaxFailedStartups →
      st.service.Startups ≤ cfg.MaxFailedStartups →
      (∀ a ∈ env, name ∈ a.knownServices ∧ a.startErr = none ∧ a.waitResult ≠ none ∧
        a.loggerUp ≠ none) →
      ((cfg.MaxFailedStartups - st.service.Startups).toNat ≤ env.length →
        (startService cfg name env st).status = .returned ∧
        launches (startService cfg name env st).trace
          = (cfg.MaxFailedStartups - st.service.Startups).toNat ∧
        (startService cfg name env st).state.service.Startups = cfg.MaxFailedStartups ∧
        (startService cfg name env st).trace.getLast? = some (capEvent name) ∧
        (startService cfg name env st).trace.count (capEvent name) = 1) ∧
      (env.length < (cfg.MaxFailedStartups - st.service.Startups).toNat →
        (startService cfg name env st).status = .pending ∧
        launches (startService cfg name env st).trace = env.length ∧
        (startService cfg name env st).state.service.Startups
          = st.service.Startups + env.length) := by
  induction env with
  | nil =>
    intro st hs hm hle _
    by_cases h : st.service.Startups ≥ cfg.MaxFailedStartups
    · rw [startService_cap cfg name [] st h]
      have hd : (cfg.MaxFailedStartups - st.service.Startups).toNat = 0 := by omega
      refine ⟨fun _ => ⟨rfl, ?_, ?_, rfl, ?_⟩, fun hlt => ?_⟩
      · rw [hd]; rfl
      · show st.service.Startups = cfg.MaxFailedStartups
        omega
      · simp [capEvent]
      · rw [hd] at hlt; simp at hlt
    · rw [startService_nil cfg name st h]
      refine ⟨fun hd => ?_, fun _ => ⟨rfl, rfl, ?_⟩⟩
      · simp at hd; omega
      · simp
  | cons a rest ih =>
    intro st hs hm hle hgood
    by_cases h : st.service.Startups ≥ cfg.MaxFailedStartups
    · rw [startService_cap cfg name _ st h]
      have hd : (cfg.MaxFailedStartups - st.service.Startups).toNat = 0 := by omega
      refine ⟨fun _ => ⟨rfl, ?_, ?_, rfl, ?_⟩, fun hlt => ?_⟩
      · rw [hd]; rfl
      · show st.service.Startups = cfg.MaxFailedStartups
        omega
      · simp [capEvent]
      · rw [hd] at hlt; simp at hlt
    · obtain ⟨hk, hst, hwr, hl⟩ := hgood a (List.mem_cons_self a rest)
      obtain ⟨r, hwr⟩ := Option.ne_none_iff_exists'.mp hwr
      obtain ⟨⟨k, p⟩, hl⟩ := Option.ne_none_iff_exists'.mp hl
      rw [startService_restart cfg name a rest st r k p h hk hst hwr hl]
      have hw := wrapInt_succ _ _ hs hm h
      have h5 : (restartState name a p st).service.Startups = st.service.Startups + 1 := by
        simp only [restartState, launchedState, hw]
      have hih := ih (restartState name a p st)
        (by rw [h5]; exact inIntRange_succ _ _ hs hm h) hm (by rw [h5]; omega)
        (fun b hb => hgood b (List.mem_cons_of_mem a hb))
      rw [h5] at hih
      simp only [run_after_status, run_after_state, run_after_trace, List.length_cons]
      rw [launches_append, launches_restart, List.count_append, count_capEvent_restart]
      constructor
      · intro hd
        obtain ⟨h1, h2, h3, h4, h5'⟩ := hih.1 (by omega)
        refine ⟨h1, ?_, h3, getLast?_append_of_some _ _ _ h4, ?_⟩
        · rw [h2]; omega
        · rw [h5']
      · intro hd
        obtain ⟨h1, h2, h3⟩ := hih.2 (by omega)
        refine ⟨h1, ?_, ?_⟩
        · rw [h2]; omega
        · rw [h3]; push_cast; omega

/-- Witness for C10, amended: 3 startups under a cap of 5, two activations. -/
theorem startService_chain_witness :
    (InIntRange (sampleSup 3).service.Startups ∧ InIntRange sampleConfig.MaxFailedStartups ∧
      (sampleSup 3).service.Startups ≤ sampleConfig.MaxFailedStartups ∧
      (∀ a ∈ [sampleAttempt, sampleAttempt], "svc-a" ∈ a.knownServices ∧ a.startErr = none ∧
        a.waitResult ≠ none ∧ a.loggerUp ≠ none) ∧
      (sampleConfig.MaxFailedStartups - (sampleSup 3).service.Startups).toNat
        ≤ [sampleAttempt, sampleAttempt].length) ∧
    ((startService sampleConfig "svc-a" [sampleAttempt, sampleAttempt]
        (sampleSup 3)).status = .returned ∧
      launches (startService sampleConfig "svc-a" [sampleAttempt, sampleAttempt]
        (sampleSup 3)).trace
        = (sampleConfig.MaxFailedStartups - (sampleSup 3).service.Startups).toNat ∧
      (startService sampleConfig "svc-a" [sampleAttempt, sampleAttempt]
        (sampleSup 3)).state.service.Startups = sampleConfig.MaxFailedStartups ∧
      (startService sampleConfig "svc-a" [sampleAttempt, sampleAttempt]
        (sampleSup 3)).trace.getLast? = some (capEvent "svc-a") ∧
      (startService sampleConfig "svc-a" [sampleAttempt, sampleAttempt]
        (sampleSup 3)).trace.count (capEvent "svc-a") = 1) :=
  ⟨by decide,
   (startService_chain sampleConfig "svc-a" [sampleAttempt, sampleAttempt] (sampleSup 3)
     (by decide) (by decide) (by decide) (by decide)).1 (by decide)⟩

/-! ## The log pump -/

@[simp] theorem logRun_after_state (evs : List Event) (r : LogRun) :
    (r.after evs).state = r.state := rfl

@[simp] theorem logRun_after_status (evs : List Event) (r : LogRun) :
    (r.after evs).status = r.status := rfl

@[simp] theorem logRun_after_trace (evs : List Event) (r : LogRun) :
    (r.after evs).trace = evs ++ r.trace := rfl

theorem loggerLaunches_append (t u : List Event) :
    loggerLaunches (t ++ u) = loggerLaunches t + loggerLaunches u := by
  simp [loggerLaunches]

theorem loggerLaunches_replayLines (value : String) (pid : Nat)
    (writeErr : Nat → Option String) (buf : List String) :
    ∀ i, loggerLaunches (replayLines value pid writeErr i buf).1 = 0 := by
  induction buf with
  | nil => intro i; rfl
  | cons line rest ih =>
    intro i
    unfold replayLines writeLine
    cases h : writeErr i with
    | none =>
      simp only
      rw [loggerLaunches_append, ih (i + 1)]
      rfl
    | some err => rfl

theorem loggerLaunches_pumpLines (pid : Nat) (writeErr : Nat → Option String)
    (out : List String) :
    ∀ i svc, loggerLaunches (pumpLines pid writeErr i svc out).2.2 = 0 := by
  induction out with
  | nil => intro i svc; rfl
  | cons line rest ih =>
    intro i svc
    unfold pumpLines writeLine
    cases h : writeErr i with
    | none =>
      simp only
      rw [loggerLaunches_append, ih (i + 1)]
      rfl
    | some err => rfl

theorem loggerLaunches_pumpOnce (svc : Service) (pid : Nat) (writeErr : Nat → Option String)
    (out : List String) : loggerLaunches (pumpOnce svc pid writeErr out).2.2 = 0 := by
  unfold pumpOnce
  simp only
  rw [loggerLaunches_append, loggerLaunches_pumpLines]
  unfold replay
  split
  · show loggerLaunches (_ :: _) = 0
    have := loggerLaunches_replayLines svc.Value pid writeErr svc.LogBuffer 0
    simpa [loggerLaunches] using this
  · rfl

/-- C3, evaluated. The service writes the lines `x`, `a`, `b`; the first logger takes `x` and
rejects `a`; the second logger takes every write.  The second logger receives the bytes
`a\n\nb\n`, the lines `a`, the empty line, `b`: the failed line is buffered with a newline
(line 183) and `writeLine` adds a second one on replay (line 126). -/
theorem startLogger_replay_doubles_newline :
    received 2 (startLogger [brokenLogger 1 1 false, healthyLogger 2 none true]
      ⟨sampleService 1, ["x", "a", "b"]⟩).trace = "a\n\nb\n" ∧
    receivedLines 2 (startLogger [brokenLogger 1 1 false, healthyLogger 2 none true]
      ⟨sampleService 1, ["x", "a", "b"]⟩).trace = ["a", "", "b"] ∧
    receivedLines 2 (startLogger [brokenLogger 1 1 false, healthyLogger 2 none true]
      ⟨sampleService 1, ["x", "a", "b"]⟩).trace ≠ ["a", "b"] := by
  decide

theorem replay_clears_buffer (svc : Service) (pid : Nat) (writeErr : Nat → Option String) :
    (replay svc pid writeErr).1.LogBuffer = [] := by
  unfold replay
  split
  · rfl
  · rename_i h
    simpa using h

/-- C4, evaluated. `LogBuffer` holds the line `a`, left by a logger that rejected it, and the
new logger rejects the replay write: after the replay step `LogBuffer` is empty although the
line has not been written.  In the run of three loggers on the output `a`, `b`, the first two
rejecting every write and the third taking every write, the line `a` reaches no logger: the
third one receives `b` only. -/
theorem replay_drops_unwritten_lines :
    (pumpOnce (loggerStarted (sampleService 1) 1) 1 (acceptFirst 0) ["a", "b"]).1.LogBuffer
      = ["a\n"] ∧
    (replay (loggerStarted { sampleService 1 with LogBuffer := ["a\n"] } 2) 2
      (acceptFirst 0)).1.LogBuffer = [] ∧
    received 2 (replay (loggerStarted { sampleService 1 with LogBuffer := ["a\n"] } 2) 2
      (acceptFirst 0)).2.1 = "" ∧
    received 1 (startLogger
      [brokenLogger 1 0 false, brokenLogger 2 0 false, healthyLogger 3 none true]
      ⟨sampleService 1, ["a", "b"]⟩).trace = "" ∧
    received 2 (startLogger
      [brokenLogger 1 0 false, brokenLogger 2 0 false, healthyLogger 3 none true]
      ⟨sampleService 1, ["a", "b"]⟩).trace = "" ∧
    receivedLines 3 (startLogger
      [brokenLogger 1 0 false, brokenLogger 2 0 false, healthyLogger 3 none true]
      ⟨sampleService 1, ["a", "b"]⟩).trace = ["b", ""] ∧
    (startLogger
      [brokenLogger 1 0 false, brokenLogger 2 0 false, healthyLogger 3 none true]
      ⟨sampleService 1, ["a", "b"]⟩).status = .returned := by
  decide

/-- C5, as stated, fails: the logger has taken every line, so `LogBuffer` is empty, and the
select takes its first case; `startLogger` returns without a new Log Pump instance, second
logger never launched, whether `Wait` returned nil or an error. -/
theorem startLogger_first_case_no_restart :
    (startLogger [healthyLogger 1 none true, healthyLogger 2 none true]
      ⟨sampleService 1, ["a"]⟩).status = .returned ∧
    loggerLaunches (startLogger [healthyLogger 1 none true, healthyLogger 2 none true]
      ⟨sampleService 1, ["a"]⟩).trace = 1 ∧
    (startLogger [healthyLogger 1 (some "exit status 1") true, healthyLogger 2 none true]
      ⟨sampleService 1, ["a"]⟩).status = .returned ∧
    loggerLaunches (startLogger
      [healthyLogger 1 (some "exit status 1") true, healthyLogger 2 none true]
      ⟨sampleService 1, ["a"]⟩).trace = 1 := by
  decide

theorem startLogger_launches_one (r : LoggerRun) (rest : List LoggerRun) (st : Pump)
    (hp : r.pipeErr = none) (hs : r.startErr = none) :
    1 ≤ loggerLaunches (startLogger (r :: rest) st).trace := by
  have hone : ∀ t : List Event, 1 ≤ loggerLaunches (Event.launchLogger true :: t) := by
    intro t
    show 1 ≤ loggerLaunches ([Event.launchLogger true] ++ t)
    rw [loggerLaunches_append]
    exact Nat.le_add_right 1 _
  unfold startLogger
  simp only [hp, hs]
  cases r.done with
  | none => exact hone _
  | some w =>
    simp only
    cases r.firstCase with
    | false =>
      simp only [Bool.false_eq_true, if_false, logRun_after_trace, List.cons_append]
      exact hone _
    | true =>
      simp only [if_true]
      split
      · simp only [logRun_after_trace, List.cons_append]
        exact hone _
      · exact hone _

/-- C5, amended. When the logger subprocess has exited and `Wait` has delivered its result:
if the select takes its second case, or if `LogBuffer` is not empty, `startLogger` calls
itself on the rest of the same output stream, so that a second logger is launched when the
launch succeeds; if the select takes its first case and `LogBuffer` is empty, `startLogger`
returns and exactly one logger has been launched. -/
theorem startLogger_restart_cases (r : LoggerRun) (rest : List LoggerRun) (st : Pump)
    (w : Option String) (hp : r.pipeErr = none) (hs : r.startErr = none)
    (hd : r.done = some w) :
    ((r.firstCase = false ∨
        (pumpOnce (loggerStarted st.service r.pid) r.pid r.writeErr st.stdout).1.LogBuffer
          ≠ []) →
      startLogger (r :: rest) st
        = (startLogger rest
            ⟨(pumpOnce (loggerStarted st.service r.pid) r.pid r.writeErr st.stdout).1,
             (pumpOnce (loggerStarted st.service r.pid) r.pid r.writeErr st.stdout).2.1⟩).after
            (Event.launchLogger true ::
              (pumpOnce (loggerStarted st.service r.pid) r.pid r.writeErr st.stdout).2.2 ++
              [Event.loggerExited r.pid,
               Event.log .warning
                 (if r.firstCase then .loggerDoneClean st.service.Value
                  else .loggerDoneError st.service.Value w)]) ∧
      (∀ r2 rest2, rest = r2 :: rest2 → r2.pipeErr = none → r2.startErr = none →
        2 ≤ loggerLaunches (startLogger (r :: rest) st).trace)) ∧
    ((r.firstCase = true ∧
        (pumpOnce (loggerStarted st.service r.pid) r.pid r.writeErr st.stdout).1.LogBuffer
          = []) →
      (startLogger (r :: rest) st).status = .returned ∧
      loggerLaunches (startLogger (r :: rest) st).trace = 1 ∧
      (startLogger (r :: rest) st).state
        = ⟨(pumpOnce (loggerStarted st.service r.pid) r.pid r.writeErr st.stdout).1,
           (pumpOnce (loggerStarted st.service r.pid) r.pid r.writeErr st.stdout).2.1⟩) := by
  constructor
  · intro hcase
    have heq : startLogger (r :: rest) st
        = (startLogger rest
            ⟨(pumpOnce (loggerStarted st.service r.pid) r.pid r.writeErr st.stdout).1,
             (pumpOnce (loggerStarted st.service r.pid) r.pid r.writeErr st.stdout).2.1⟩).after
            (Event.launchLogger true ::
              (pumpOnce (loggerStarted st.service r.pid) r.pid r.writeErr st.stdout).2.2 ++
              [Event.loggerExited r.pid,
               Event.log .warning
                 (if r.firstCase then .loggerDoneClean st.service.Value
                  else .loggerDoneError st.service.Value w)]) := by
      cases hf : r.firstCase with
      | false =>
        simp [startLogger, hp, hs, hd, hf, loggerStarted, loggerCommand, execCommand]
      | true =>
        have hb : (pumpOnce (loggerStarted st.service r.pid) r.pid r.writeErr
            st.stdout).1.LogBuffer ≠ [] := by
          rcases hcase with h | h
          · rw [hf] at h; cases h
          · exact h
        have hb' : 0 < (pumpOnce (loggerStarted st.service r.pid) r.pid r.writeErr
            st.stdout).1.LogBuffer.length := List.length_pos.mpr hb
        simp only [loggerStarted] at hb'
        simp [startLogger, hp, hs, hd, hf, loggerStarted, loggerCommand, execCommand, hb']
    refine ⟨heq, ?_⟩
    intro r2 rest2 hrest hp2 hs2
    rw [heq, hrest, logRun_after_trace, loggerLaunches_append]
    have h1 := startLogger_launches_one r2 rest2
      ⟨(pumpOnce (loggerStarted st.service r.pid) r.pid r.writeErr st.stdout).1,
       (pumpOnce (loggerStarted st.service r.pid) r.pid r.writeErr st.stdout).2.1⟩ hp2 hs2
    have h2 : 1 ≤ loggerLaunches (Event.launchLogger true ::
        (pumpOnce (loggerStarted st.service r.pid) r.pid r.writeErr st.stdout).2.2 ++
        [Event.loggerExited r.pid,
         Event.log .warning
           (if r.firstCase then .loggerDoneClean st.service.Value
            else .loggerDoneError st.service.Value w)]) := by
      show 1 ≤ loggerLaunches ([Event.launchLogger true] ++ _)
      rw [loggerLaunches_append]
      exact Nat.le_add_right 1 _
    omega
  · rintro ⟨hf, hb⟩
    have hb' := hb
    simp only [loggerStarted] at hb'
    have heq : startLogger (r :: rest) st
        = ⟨⟨(pumpOnce (loggerStarted st.service r.pid) r.pid r.writeErr st.stdout).1,
            (pumpOnce (loggerStarted st.service r.pid) r.pid r.writeErr st.stdout).2.1⟩,
           Event.launchLogger true ::
             (pumpOnce (loggerStarted st.service r.pid) r.pid r.writeErr st.stdout).2.2 ++
             [Event.loggerExited r.pid, Event.log .warning (.loggerDoneClean st.service.Value)],
           .returned⟩ := by
      simp [startLogger, hp, hs, hd, hf, loggerStarted, loggerCommand, execCommand, hb']
    rw [heq]
    refine ⟨rfl, ?_, rfl⟩
    show loggerLaunches ([Event.launchLogger true] ++ _ ++ _) = 1
    rw [loggerLaunches_append, loggerLaunches_append, loggerLaunches_pumpOnce]
    rfl

/-- Witness for C5, amended: the logger dies on the second line, the select takes its first case, and a second logger is launched. -/
theorem startLogger_restart_cases_witness :
    ((brokenLogger 1 1 true).pipeErr = none ∧ (brokenLogger 1 1 true).startErr = none ∧
      (brokenLogger 1 1 true).done = some (some "signal: killed") ∧
      (pumpOnce (loggerStarted (sampleService 1) 1) 1 (brokenLogger 1 1 true).writeErr
        ["x", "a", "b"]).1.LogBuffer ≠ []) ∧
    2 ≤ loggerLaunches (startLogger [brokenLogger 1 1 true, healthyLogger 2 none true]
      ⟨sampleService 1, ["x", "a", "b"]⟩).trace :=
  ⟨by decide,
   ((startLogger_restart_cases (brokenLogger 1 1 true) [healthyLogger 2 none true]
      ⟨sampleService 1, ["x", "a", "b"]⟩ (some "signal: killed") rfl rfl rfl).1
      (Or.inr (by decide))).2 (healthyLogger 2 none true) [] rfl rfl rfl⟩

end Svscan
